import Mathlib

/-!
# husbandgram: the `/create` handler and the audio retention sweeper

A shallow embedding of `src/main.go`.

* Go strings and byte slices are lists of byte values (`Bytes`); a Go string need
  not be valid UTF-8, so validity is a computed predicate (`utf8ValidString`).
* Everything the handler asks of its surroundings (environment variables, form
  fields, the JSON codec, the HTTP client, the UUID source, the file system's
  failures) is a field of `World`; the handler is a pure function from a `World`
  to an `Outcome` holding the HTTP response, the log, the ordered trace of
  outbound calls and file-system operations, and the resulting file system.
* The sweeper's loop body is `sweepTick`, one run per element of a list of ticks.
-/

namespace Husbandgram

/-! ## Go values -/

/-- A Go `string` or `[]byte`: a sequence of byte values. -/
abbrev Bytes := List Nat

/-- A Go `error` value, kept as the text it prints. -/
abbrev GoError := Bytes

/-- The bytes of a string constant of the source (all of them are ASCII). -/
def ascii (s : String) : Bytes := s.toList.map Char.toNat

/-- The acceptance table of `unicode/utf8` for a leading byte that is not ASCII:
how many continuation bytes follow it and the range allowed for the first of
them. `none` for a byte that cannot start a sequence. -/
def utf8First (b : Nat) : Option (Nat × Nat × Nat) :=
  if 0xC2 ≤ b ∧ b ≤ 0xDF then some (1, 0x80, 0xBF)
  else if b = 0xE0 then some (2, 0xA0, 0xBF)
  else if 0xE1 ≤ b ∧ b ≤ 0xEC then some (2, 0x80, 0xBF)
  else if b = 0xED then some (2, 0x80, 0x9F)
  else if 0xEE ≤ b ∧ b ≤ 0xEF then some (2, 0x80, 0xBF)
  else if b = 0xF0 then some (3, 0x90, 0xBF)
  else if 0xF1 ≤ b ∧ b ≤ 0xF3 then some (3, 0x80, 0xBF)
  else if b = 0xF4 then some (3, 0x80, 0x8F)
  else none

/-- The scan of `utf8.ValidString`: `pending` continuation bytes are still owed,
the next of them within `lo..hi`. -/
def utf8ValidFrom : Bytes → Nat → Nat → Nat → Bool
  | [], pending, _, _ => pending == 0
  | b :: rest, 0, _, _ =>
    if b < 0x80 then utf8ValidFrom rest 0 0 0
    else
      match utf8First b with
      | none => false
      | some (n, lo, hi) => utf8ValidFrom rest n lo hi
  | b :: rest, pending + 1, lo, hi =>
    if lo ≤ b ∧ b ≤ hi then utf8ValidFrom rest pending 0x80 0xBF else false

/-- Go `utf8.ValidString`. -/
def utf8ValidString (s : Bytes) : Bool := utf8ValidFrom s 0 0 0

/-- What `html.EscapeString` writes for one byte. -/
def htmlEscapeByte (b : Nat) : Bytes :=
  if b = 38 then ascii "&amp;"
  else if b = 39 then ascii "&#39;"
  else if b = 60 then ascii "&lt;"
  else if b = 62 then ascii "&gt;"
  else if b = 34 then ascii "&#34;"
  else [b]

/-- The source's `htmlEscape`, which is Go `html.EscapeString`: the five characters
`&`, the apostrophe, `<`, `>` and the double quote are replaced by entities. -/
def htmlEscape (s : Bytes) : Bytes := s.flatMap htmlEscapeByte

/-- The decoder of the five entities `&amp;`, `&#39;`, `&lt;`, `&gt;`, `&#34;`, with
`skip` bytes of an entity just decoded still to be passed over. Every other byte,
an ampersand that starts none of the five included, is kept. -/
def htmlUnescapeFrom : Nat → Bytes → Bytes
  | _, [] => []
  | skip + 1, _ :: rest => htmlUnescapeFrom skip rest
  | 0, c :: rest =>
    if c = 38 then
      if rest.take 4 = [97, 109, 112, 59] then 38 :: htmlUnescapeFrom 4 rest
      else if rest.take 4 = [35, 51, 57, 59] then 39 :: htmlUnescapeFrom 4 rest
      else if rest.take 3 = [108, 116, 59] then 60 :: htmlUnescapeFrom 3 rest
      else if rest.take 3 = [103, 116, 59] then 62 :: htmlUnescapeFrom 3 rest
      else if rest.take 4 = [35, 51, 52, 59] then 34 :: htmlUnescapeFrom 4 rest
      else c :: htmlUnescapeFrom 0 rest
    else c :: htmlUnescapeFrom 0 rest

/-- What a browser shows for escaped text: the five entities read back as the
characters they stand for. -/
def htmlUnescape (s : Bytes) : Bytes := htmlUnescapeFrom 0 s

/-! ## Payloads of the two upstream APIs -/

structure Message where
  role : Bytes
  content : Bytes

structure RequestPayload where
  model : Bytes
  messages : List Message
  stream : Bool

structure Choice where
  message : Message

structure ResponsePayload where
  choices : List Choice

/-- The `voice_settings` map of the ElevenLabs payload. -/
structure VoiceSettings where
  stability : ℚ
  similarity_boost : ℚ

/-- The `map[string]interface{}` sent to ElevenLabs. -/
structure ElevenLabsPayload where
  text : Bytes
  model_id : Bytes
  voice_settings : VoiceSettings

/-! ## HTTP, log, file system -/

structure HttpRequest where
  method : Bytes
  url : Bytes
  body : Bytes
  header : List (String × Bytes)

/-- An `*http.Response`: the body is a stream that delivers `body` and then ends,
with end-of-file when `bodyErr` is `none` and with that error otherwise. -/
structure HttpResponse where
  statusCode : Nat
  status : Bytes
  body : Bytes
  bodyErr : Option GoError

inductive Level where
  | info
  | warn
  | error
  deriving DecidableEq

/-- One call of the zap logger: level, message, key/value context. -/
structure LogEntry where
  level : Level
  msg : String
  fields : List (String × Bytes)

/-- The files and directories the program can see, by path. -/
structure FS where
  dirs : Bytes → Bool
  files : Bytes → Option Bytes

/-- The state after a successful `os.MkdirAll(path, perm)`. -/
def FS.mkdirAll (fs : FS) (path : Bytes) : FS :=
  { fs with dirs := fun q => if q = path then true else fs.dirs q }

/-- The state after a successful `os.OpenFile(path, O_WRONLY|flags, perm)`:
`O_CREATE` makes an absent file (empty), `O_TRUNC` empties an existing one. -/
def FS.openFile (fs : FS) (path : Bytes) (create trunc : Bool) : FS :=
  { fs with
    files := fun q =>
      if q = path then
        match fs.files path with
        | some c => some (if trunc then [] else c)
        | none => if create then some [] else none
      else fs.files q }

/-- The state after writing `data` from offset 0 through a descriptor just opened
on `path`: the bytes overlay the start of the old content, what lies beyond them
stays. -/
def FS.write (fs : FS) (path : Bytes) (data : Bytes) : FS :=
  { fs with
    files := fun q =>
      if q = path then (fs.files path).map (fun c => data ++ c.drop data.length)
      else fs.files q }

/-- The state after a successful `os.Remove(path)`. -/
def FS.remove (fs : FS) (path : Bytes) : FS :=
  { fs with files := fun q => if q = path then none else fs.files q }

/-- What the program does to the outside, in order. -/
inductive Effect where
  | httpDo (req : HttpRequest)
  | mkdirAll (path : Bytes) (perm : Nat)
  | openFile (path : Bytes) (perm : Nat)
  | write (path : Bytes) (data : Bytes)
  | remove (path : Bytes)

/-- Whether an effect touches the file system. -/
def Effect.isFileOp : Effect → Bool
  | .httpDo _ => false
  | _ => true

/-- Whether an effect is an outbound HTTP call. -/
def Effect.isHttpCall : Effect → Bool
  | .httpDo _ => true
  | _ => false

/-- Go `filepath.Join(dir, name)` for a plain directory name and a file name
without separators or dot segments (a UUID string, a directory entry's name):
`Clean` leaves such a path as it is. -/
def filepathJoin (dir name : Bytes) : Bytes := dir ++ ascii "/" ++ name

/-- Everything `logicAPIHandler` obtains from outside itself. -/
structure World where
  /-- Go `os.Getenv`. -/
  getenv : String → Bytes
  /-- Gin `c.PostForm`. -/
  postForm : String → Bytes
  /-- Go `json.Marshal` on the DeepSeek payload. -/
  jsonMarshalRequest : RequestPayload → Except GoError Bytes
  /-- Go `json.Marshal` on the ElevenLabs payload. -/
  jsonMarshalElevenLabs : ElevenLabsPayload → Except GoError Bytes
  /-- The error of `http.NewRequest(method, url, body)`, if any. -/
  newRequestErr : Bytes → Bytes → Option GoError
  /-- The shared client, `httpClient.Do`. -/
  httpDo : HttpRequest → Except GoError HttpResponse
  /-- Go `json.Unmarshal` into a `ResponsePayload`. -/
  jsonUnmarshal : Bytes → Except GoError ResponsePayload
  /-- The value of `uuid.New().String()`. -/
  uuidNew : Bytes
  /-- The error of `os.MkdirAll(path, _)`, if any. -/
  mkdirAllErr : Bytes → Option GoError
  /-- The error of `os.OpenFile(path, _, _)`, if any. -/
  openFileErr : Bytes → Option GoError
  /-- A failing disk: after that many bytes a write to the file fails with the error. -/
  writeFault : Option (Nat × GoError)
  /-- The file system when the request arrives. -/
  fs : FS

/-- What one run of the handler leaves behind. -/
structure Outcome where
  status : Nat
  contentType : String
  body : Bytes
  log : List LogEntry
  effects : List Effect
  fs : FS

/-- Gin `c.Data(status, "text/html", body)` followed by `return`. -/
def respond (status : Nat) (body : Bytes) (log : List LogEntry) (effects : List Effect)
    (fs : FS) : Outcome :=
  { status := status, contentType := "text/html", body := body, log := log,
    effects := effects, fs := fs }

/-- Go `io.Copy(outFile, resp.Body)` onto the file at `path`: the bytes that reach
the file and the error returned. A failing write stops the copy at the bytes the
disk took; otherwise the whole stream is written and the stream's own error, if
any, is the result. -/
def ioCopy (writeFault : Option (Nat × GoError)) (resp : HttpResponse) :
    Bytes × Option GoError :=
  match writeFault with
  | some (n, e) =>
    if n < resp.body.length then (resp.body.take n, some e) else (resp.body, resp.bodyErr)
  | none => (resp.body, resp.bodyErr)

/-! ## Constants of the source -/

def elevenLabsvoiceID : Bytes := ascii "EXAVITQu4vr4xnSDxMaL"

def elevenLabsAPIURL : Bytes :=
  ascii "https://api.elevenlabs.io/v1/text-to-speech/" ++ elevenLabsvoiceID
    ++ ascii "?output_format=mp3_44100_128"

def deepseekAPIURL : Bytes := ascii "https://api.deepseek.com/chat/completions"

def httpStatusOK : Nat := 200

def httpStatusBadRequest : Nat := 400

def httpStatusInternalServerError : Nat := 500

/-- The system message of the DeepSeek payload, `fmt.Sprintf` with the genre. -/
def systemPrompt (genreInput : Bytes) : Bytes :=
  ascii "You take my input and return it as if a novelist wrote it and from a first person perspective of a female being told the prompt by a male but the female never responds (excluding any roleplay dialogue and including the input) for this genre: "
    ++ genreInput
    ++ ascii " . Please keep the responses short, but getting the point across"

def deepseekPayload (genreInput userInput : Bytes) : RequestPayload :=
  { model := ascii "deepseek-chat",
    messages :=
      [ { role := ascii "system", content := systemPrompt genreInput },
        { role := ascii "user", content := userInput } ],
    stream := false }

/-- The request sent to DeepSeek, headers set. -/
def deepseekRequest (deepseekAPIKey payloadBytes : Bytes) : HttpRequest :=
  { method := ascii "POST", url := deepseekAPIURL, body := payloadBytes,
    header :=
      [ ("Content-Type", ascii "application/json"),
        ("Authorization", ascii "Bearer " ++ deepseekAPIKey) ] }

def elevenLabsPayload (text : Bytes) : ElevenLabsPayload :=
  { text := text, model_id := ascii "eleven_monolingual_v1",
    voice_settings := { stability := 1 / 2, similarity_boost := 1 / 2 } }

/-- The request sent to ElevenLabs, headers set. -/
def elevenLabsRequest (elevenLabsAPIKey payloadBytes : Bytes) : HttpRequest :=
  { method := ascii "POST", url := elevenLabsAPIURL, body := payloadBytes,
    header :=
      [ ("xi-api-key", elevenLabsAPIKey),
        ("Content-Type", ascii "application/json"),
        ("accept", ascii "audio/mpeg") ] }

/-- The source's `tempFile`, `filepath.Join("audio", uniqueID+".mp3")`. -/
def tempFile (uniqueID : Bytes) : Bytes :=
  filepathJoin (ascii "audio") (uniqueID ++ ascii ".mp3")

/-- The success fragment up to the generated text. -/
def audioHTMLHead : Bytes :=
  ascii ("\n\t\t<div class=\"space-y-4 p-4 bg-gray-50 rounded-lg\">"
    ++ "\n\t\t\t<div class=\"text-gray-700 mb-2\">"
    ++ "\n\t\t\t\t<span class=\"font-medium\">Generated Text:</span>"
    ++ "\n\t\t\t\t<p class=\"mt-1\">")

/-- The success fragment between the generated text and the audio URL. -/
def audioHTMLMid : Bytes :=
  ascii ("</p>"
    ++ "\n\t\t\t</div>"
    ++ "\n\t\t\t<div class=\"audio-player bg-white p-3 rounded-lg shadow-sm border border-gray-200\">"
    ++ "\n\t\t\t\t<audio controls class=\"w-full\" onerror=\"this.parentElement.innerHTML=\x27<p class=\\\\\x27text-red-500\\\\\x27>Failed to load audio</p>\x27\">"
    ++ "\n\t\t\t\t\t<source src=\"")

/-- The success fragment after the audio URL and its `.mp3`. -/
def audioHTMLTail : Bytes :=
  ascii ("\" type=\"audio/mpeg\">"
    ++ "\n\t\t\t\t\tYour browser does not support the audio element."
    ++ "\n\t\t\t\t</audio>"
    ++ "\n\t\t\t</div>"
    ++ "\n\t\t\t<div class=\"text-sm text-gray-500 mt-2\">"
    ++ "\n\t\t\t\t<i class=\"fas fa-info-circle mr-1\"></i> Audio will be automatically deleted after 24 hours"
    ++ "\n\t\t\t</div>"
    ++ "\n\t\t</div>"
    ++ "\n\t")

/-- The `fmt.Sprintf` of the success fragment: escaped text and audio URL put in
the two `%s` places. -/
def audioHTML (escapedText audioURL : Bytes) : Bytes :=
  audioHTMLHead ++ escapedText ++ audioHTMLMid ++ audioURL ++ ascii ".mp3" ++ audioHTMLTail

/-! ## The handler of `POST /create` -/

/-- The source's `logicAPIHandler`, one `if`/`match` per check in source order.
Each `respond` is a `c.Data(...)` followed by `return`; the log, the trace of
effects and the file system are carried along. -/
def logicAPIHandler (w : World) : Outcome :=
  let deepseekAPIKey := w.getenv "DEEPSEEK_API_KEY"
  let elevenLabsAPIKey := w.getenv "ELEVENLABS_API_KEY"
  if deepseekAPIKey = [] ∨ elevenLabsAPIKey = [] then
    respond httpStatusInternalServerError
      (ascii "<div class=\"text-red-600\">Server configuration error</div>")
      [⟨.error, "Missing API keys", []⟩] [] w.fs
  else
  let userInput := w.postForm "userInput"
  let genreInput := w.postForm "genreInput"
  if userInput = [] ∨ genreInput = [] then
    respond httpStatusBadRequest
      (ascii "<div class=\"text-red-600\">userInput and genreInput are required</div>")
      [⟨.warn, "Invalid input: userInput or genreInput empty", []⟩] [] w.fs
  else if utf8ValidString userInput = false ∨ utf8ValidString genreInput = false then
    respond httpStatusBadRequest
      (ascii "<div class=\"text-red-600\">Inputs must contain valid characters</div>")
      [⟨.warn, "Invalid input: userInput or genreInput contains invalid UTF-8", []⟩] [] w.fs
  else
  match w.jsonMarshalRequest (deepseekPayload genreInput userInput) with
  | .error err =>
    respond httpStatusInternalServerError
      (ascii "<div class=\"text-red-600\">Failed to process request</div>")
      [⟨.error, "Failed to marshal DeepSeek JSON", [("error", err)]⟩] [] w.fs
  | .ok deepseekPayloadBytes =>
  match w.newRequestErr (ascii "POST") deepseekAPIURL with
  | some err =>
    respond httpStatusInternalServerError
      (ascii "<div class=\"text-red-600\">Failed to process request</div>")
      [⟨.error, "Failed to create DeepSeek request", [("error", err)]⟩] [] w.fs
  | none =>
  let deepseekReq := deepseekRequest deepseekAPIKey deepseekPayloadBytes
  match w.httpDo deepseekReq with
  | .error err =>
    respond httpStatusInternalServerError
      (ascii "<div class=\"text-red-600\">Failed to contact DeepSeek API</div>")
      [⟨.error, "Failed to send DeepSeek request", [("error", err)]⟩]
      [.httpDo deepseekReq] w.fs
  | .ok deepseekResp =>
  if deepseekResp.statusCode ≠ httpStatusOK then
    respond httpStatusInternalServerError
      (ascii "<div class=\"text-red-600\">DeepSeek API error</div>")
      [⟨.error, "DeepSeek API error",
        [("status", deepseekResp.status), ("body", deepseekResp.body)]⟩]
      [.httpDo deepseekReq] w.fs
  else
  match deepseekResp.bodyErr with
  | some err =>
    respond httpStatusInternalServerError
      (ascii "<div class=\"text-red-600\">Failed to process DeepSeek response</div>")
      [⟨.error, "Failed to read DeepSeek response", [("error", err)]⟩]
      [.httpDo deepseekReq] w.fs
  | none =>
  match w.jsonUnmarshal deepseekResp.body with
  | .error err =>
    respond httpStatusInternalServerError
      (ascii "<div class=\"text-red-600\">Failed to parse DeepSeek response</div>")
      [⟨.error, "Failed to parse DeepSeek JSON", [("error", err)]⟩]
      [.httpDo deepseekReq] w.fs
  | .ok deepseekResponse =>
  match deepseekResponse.choices with
  | [] =>
    respond httpStatusInternalServerError
      (ascii "<div class=\"text-red-600\">No response from DeepSeek</div>")
      [⟨.warn, "No choices in DeepSeek response", []⟩]
      [.httpDo deepseekReq] w.fs
  | choice0 :: _ =>
  let deepseekAnswerToInput := choice0.message.content
  let log1 : List LogEntry :=
    [⟨.info, "DeepSeek response received", [("text", deepseekAnswerToInput)]⟩]
  match w.jsonMarshalElevenLabs (elevenLabsPayload deepseekAnswerToInput) with
  | .error err =>
    respond httpStatusInternalServerError
      (ascii "<div class=\"text-red-600\">Failed to process request</div>")
      (log1 ++ [⟨.error, "Failed to marshal ElevenLabs JSON", [("error", err)]⟩])
      [.httpDo deepseekReq] w.fs
  | .ok elevenLabsPayloadBytes =>
  match w.newRequestErr (ascii "POST") elevenLabsAPIURL with
  | some err =>
    respond httpStatusInternalServerError
      (ascii "<div class=\"text-red-600\">Failed to process request</div>")
      (log1 ++ [⟨.error, "Failed to create ElevenLabs request", [("error", err)]⟩])
      [.httpDo deepseekReq] w.fs
  | none =>
  let elevenLabsReq := elevenLabsRequest elevenLabsAPIKey elevenLabsPayloadBytes
  match w.httpDo elevenLabsReq with
  | .error err =>
    respond httpStatusInternalServerError
      (ascii "<div class=\"text-red-600\">Failed to contact ElevenLabs API</div>")
      (log1 ++ [⟨.error, "Failed to send ElevenLabs request", [("error", err)]⟩])
      [.httpDo deepseekReq, .httpDo elevenLabsReq] w.fs
  | .ok elevenLabsResp =>
  if elevenLabsResp.statusCode ≠ httpStatusOK then
    respond httpStatusInternalServerError
      (ascii "<div class=\"text-red-600\">ElevenLabs API error</div>")
      (log1 ++ [⟨.error, "ElevenLabs API error",
        [("status", elevenLabsResp.status), ("body", elevenLabsResp.body)]⟩])
      [.httpDo deepseekReq, .httpDo elevenLabsReq] w.fs
  else
  let uniqueID := w.uuidNew
  let audioURL := ascii "/audio/" ++ uniqueID
  match w.mkdirAllErr (ascii "audio") with
  | some err =>
    respond httpStatusInternalServerError
      (ascii "<div class=\"text-red-600\">Failed to save audio</div>")
      (log1 ++ [⟨.error, "Failed to create audio directory", [("error", err)]⟩])
      [.httpDo deepseekReq, .httpDo elevenLabsReq, .mkdirAll (ascii "audio") 0o755] w.fs
  | none =>
  let fs1 := w.fs.mkdirAll (ascii "audio")
  match w.openFileErr (tempFile uniqueID) with
  | some err =>
    respond httpStatusInternalServerError
      (ascii "<div class=\"text-red-600\">Failed to save audio</div>")
      (log1 ++ [⟨.error, "Failed to create audio file", [("error", err)]⟩])
      [.httpDo deepseekReq, .httpDo elevenLabsReq, .mkdirAll (ascii "audio") 0o755,
        .openFile (tempFile uniqueID) 0o644] fs1
  | none =>
  let fs2 := fs1.openFile (tempFile uniqueID) true true
  let copied := ioCopy w.writeFault elevenLabsResp
  let fs3 := fs2.write (tempFile uniqueID) copied.1
  let effects : List Effect :=
    [.httpDo deepseekReq, .httpDo elevenLabsReq, .mkdirAll (ascii "audio") 0o755,
      .openFile (tempFile uniqueID) 0o644, .write (tempFile uniqueID) copied.1]
  match copied.2 with
  | some err =>
    respond httpStatusInternalServerError
      (ascii "<div class=\"text-red-600\">Failed to save audio</div>")
      (log1 ++ [⟨.error, "Failed to save audio file", [("error", err)]⟩])
      effects fs3
  | none =>
    respond httpStatusOK
      (audioHTML (htmlEscape deepseekAnswerToInput) audioURL)
      (log1 ++ [⟨.info, "Audio response sent to client", []⟩])
      effects fs3

/-! ## Reading an outcome -/

/-- The error fragments the handler can send, as the source writes them. -/
def errorFragments : List Bytes :=
  [ ascii "<div class=\"text-red-600\">Server configuration error</div>",
    ascii "<div class=\"text-red-600\">userInput and genreInput are required</div>",
    ascii "<div class=\"text-red-600\">Inputs must contain valid characters</div>",
    ascii "<div class=\"text-red-600\">Failed to process request</div>",
    ascii "<div class=\"text-red-600\">Failed to contact DeepSeek API</div>",
    ascii "<div class=\"text-red-600\">DeepSeek API error</div>",
    ascii "<div class=\"text-red-600\">Failed to process DeepSeek response</div>",
    ascii "<div class=\"text-red-600\">Failed to parse DeepSeek response</div>",
    ascii "<div class=\"text-red-600\">No response from DeepSeek</div>",
    ascii "<div class=\"text-red-600\">Failed to contact ElevenLabs API</div>",
    ascii "<div class=\"text-red-600\">ElevenLabs API error</div>",
    ascii "<div class=\"text-red-600\">Failed to save audio</div>" ]

/-- The check at which a run stopped: every failing path of the handler ends with
one log call whose message names the check, so the message of the last log entry
identifies it. -/
def failedCheck (r : Outcome) : Option String := r.log.getLast?.map (fun e => e.msg)

/-- The fragment the source sends after the log call with that message. -/
def errorFragmentOf (msg : String) : Bytes :=
  if msg = "Missing API keys" then
    ascii "<div class=\"text-red-600\">Server configuration error</div>"
  else if msg = "Invalid input: userInput or genreInput empty" then
    ascii "<div class=\"text-red-600\">userInput and genreInput are required</div>"
  else if msg = "Invalid input: userInput or genreInput contains invalid UTF-8" then
    ascii "<div class=\"text-red-600\">Inputs must contain valid characters</div>"
  else if msg = "Failed to send DeepSeek request" then
    ascii "<div class=\"text-red-600\">Failed to contact DeepSeek API</div>"
  else if msg = "DeepSeek API error" then
    ascii "<div class=\"text-red-600\">DeepSeek API error</div>"
  else if msg = "Failed to read DeepSeek response" then
    ascii "<div class=\"text-red-600\">Failed to process DeepSeek response</div>"
  else if msg = "Failed to parse DeepSeek JSON" then
    ascii "<div class=\"text-red-600\">Failed to parse DeepSeek response</div>"
  else if msg = "No choices in DeepSeek response" then
    ascii "<div class=\"text-red-600\">No response from DeepSeek</div>"
  else if msg = "Failed to send ElevenLabs request" then
    ascii "<div class=\"text-red-600\">Failed to contact ElevenLabs API</div>"
  else if msg = "ElevenLabs API error" then
    ascii "<div class=\"text-red-600\">ElevenLabs API error</div>"
  else if msg = "Failed to create audio directory" ∨ msg = "Failed to create audio file"
      ∨ msg = "Failed to save audio file" then
    ascii "<div class=\"text-red-600\">Failed to save audio</div>"
  else
    ascii "<div class=\"text-red-600\">Failed to process request</div>"

/-! ## Upstream failures, read off the world -/

/-- The request passes the handler's own checks and the DeepSeek request, with body
`reqBytes`, is built: both keys set, both inputs non-empty and valid UTF-8, the
payload marshalled, `http.NewRequest` without error. -/
def GeneratorCalled (w : World) (reqBytes : Bytes) : Prop :=
  w.getenv "DEEPSEEK_API_KEY" ≠ [] ∧ w.getenv "ELEVENLABS_API_KEY" ≠ []
    ∧ w.postForm "userInput" ≠ [] ∧ w.postForm "genreInput" ≠ []
    ∧ utf8ValidString (w.postForm "userInput") = true
    ∧ utf8ValidString (w.postForm "genreInput") = true
    ∧ w.jsonMarshalRequest
        (deepseekPayload (w.postForm "genreInput") (w.postForm "userInput")) = .ok reqBytes
    ∧ w.newRequestErr (ascii "POST") deepseekAPIURL = none

/-- The generator stage succeeds with the text `t`: DeepSeek answers 200 with a
readable body that parses to at least one choice, the first with content `t`. -/
def GeneratorAnswers (w : World) (reqBytes t : Bytes) : Prop :=
  GeneratorCalled w reqBytes
    ∧ ∃ resp parsed choice0 others,
        w.httpDo (deepseekRequest (w.getenv "DEEPSEEK_API_KEY") reqBytes) = .ok resp
          ∧ resp.statusCode = 200 ∧ resp.bodyErr = none
          ∧ w.jsonUnmarshal resp.body = .ok parsed
          ∧ parsed.choices = choice0 :: others
          ∧ choice0.message.content = t

/-- The generator stage succeeds with `t` and the ElevenLabs request, with body
`ttsBytes`, is built. -/
def SynthesizerCalled (w : World) (reqBytes t ttsBytes : Bytes) : Prop :=
  GeneratorAnswers w reqBytes t
    ∧ w.jsonMarshalElevenLabs (elevenLabsPayload t) = .ok ttsBytes
    ∧ w.newRequestErr (ascii "POST") elevenLabsAPIURL = none

/-- Where an upstream failure strikes. -/
inductive Stage where
  | generator
  | synthesizer
  | audioStream
  deriving DecidableEq

/-- The failures of the two upstream services, as facts about the world: what the
HTTP client, the response and the JSON codec answer. -/
inductive UpstreamFailure (w : World) : Stage → Prop where
  /-- The call to DeepSeek fails (network failure, timeout). -/
  | generatorCall (reqBytes : Bytes) (err : GoError)
      (hcalled : GeneratorCalled w reqBytes)
      (hdo : w.httpDo (deepseekRequest (w.getenv "DEEPSEEK_API_KEY") reqBytes) = .error err) :
      UpstreamFailure w .generator
  /-- DeepSeek answers with a status other than 200. -/
  | generatorStatus (reqBytes : Bytes) (resp : HttpResponse)
      (hcalled : GeneratorCalled w reqBytes)
      (hdo : w.httpDo (deepseekRequest (w.getenv "DEEPSEEK_API_KEY") reqBytes) = .ok resp)
      (hstatus : resp.statusCode ≠ 200) :
      UpstreamFailure w .generator
  /-- DeepSeek answers 200 and its body cannot be read to the end. -/
  | generatorBody (reqBytes : Bytes) (resp : HttpResponse) (err : GoError)
      (hcalled : GeneratorCalled w reqBytes)
      (hdo : w.httpDo (deepseekRequest (w.getenv "DEEPSEEK_API_KEY") reqBytes) = .ok resp)
      (hstatus : resp.statusCode = 200)
      (hread : resp.bodyErr = some err) :
      UpstreamFailure w .generator
  /-- DeepSeek answers 200 with a body that is not the expected JSON. -/
  | generatorParse (reqBytes : Bytes) (resp : HttpResponse) (err : GoError)
      (hcalled : GeneratorCalled w reqBytes)
      (hdo : w.httpDo (deepseekRequest (w.getenv "DEEPSEEK_API_KEY") reqBytes) = .ok resp)
      (hstatus : resp.statusCode = 200)
      (hread : resp.bodyErr = none)
      (hparse : w.jsonUnmarshal resp.body = .error err) :
      UpstreamFailure w .generator
  /-- DeepSeek answers 200 with well-formed JSON that has no choice. -/
  | generatorNoChoices (reqBytes : Bytes) (resp : HttpResponse) (parsed : ResponsePayload)
      (hcalled : GeneratorCalled w reqBytes)
      (hdo : w.httpDo (deepseekRequest (w.getenv "DEEPSEEK_API_KEY") reqBytes) = .ok resp)
      (hstatus : resp.statusCode = 200)
      (hread : resp.bodyErr = none)
      (hparse : w.jsonUnmarshal resp.body = .ok parsed)
      (hzero : parsed.choices = []) :
      UpstreamFailure w .generator
  /-- The call to ElevenLabs fails (network failure, timeout). -/
  | synthesizerCall (reqBytes t ttsBytes : Bytes) (err : GoError)
      (hcalled : SynthesizerCalled w reqBytes t ttsBytes)
      (hdo : w.httpDo (elevenLabsRequest (w.getenv "ELEVENLABS_API_KEY") ttsBytes)
        = .error err) :
      UpstreamFailure w .synthesizer
  /-- ElevenLabs answers with a status other than 200. -/
  | synthesizerStatus (reqBytes t ttsBytes : Bytes) (resp : HttpResponse)
      (hcalled : SynthesizerCalled w reqBytes t ttsBytes)
      (hdo : w.httpDo (elevenLabsRequest (w.getenv "ELEVENLABS_API_KEY") ttsBytes) = .ok resp)
      (hstatus : resp.statusCode ≠ 200) :
      UpstreamFailure w .synthesizer
  /-- ElevenLabs answers 200 and its audio stream breaks before its end. -/
  | streamBreaks (reqBytes t ttsBytes : Bytes) (resp : HttpResponse) (err : GoError)
      (hcalled : SynthesizerCalled w reqBytes t ttsBytes)
      (hdo : w.httpDo (elevenLabsRequest (w.getenv "ELEVENLABS_API_KEY") ttsBytes) = .ok resp)
      (hstatus : resp.statusCode = 200)
      (hread : resp.bodyErr = some err) :
      UpstreamFailure w .audioStream

/-! ## The retention sweeper -/

/-- The largest Go `time.Duration` (an `int64` count of nanoseconds). -/
def maxDuration : Int := 2 ^ 63 - 1

/-- The smallest Go `time.Duration`. -/
def minDuration : Int := -(2 ^ 63)

/-- Go `time.Hour`, in nanoseconds. -/
def timeHour : Int := 3600 * 1000000000

/-- Go `time.Since(t)` at the instant `now`, instants counted in nanoseconds:
`now.Sub(t)`, which saturates at the ends of `time.Duration`. -/
def timeSince (now t : Int) : Int :=
  if now - t > maxDuration then maxDuration
  else if now - t < minDuration then minDuration
  else now - t

/-- An `os.FileInfo`, of which the sweeper reads the modification time. -/
structure FileInfo where
  modTime : Int

/-- What the surroundings answer during one tick of the sweeper. -/
structure Tick where
  /-- The value of `time.Now()` when the entry of that name is examined. -/
  now : Bytes → Int
  /-- The result of `os.ReadDir("audio")`: the entries' names. -/
  readDir : Except GoError (List Bytes)
  /-- The result of `f.Info()` for the entry of that name. -/
  info : Bytes → Except GoError FileInfo
  /-- The error of `os.Remove(path)`, if any. -/
  removeErr : Bytes → Option GoError

/-- The log, the trace of effects and the file system of the sweeper's goroutine. -/
structure SweepState where
  log : List LogEntry
  effects : List Effect
  fs : FS

/-- The inner loop of `cleanupHelperFunc`, `for _, f := range files`. -/
def sweepFiles (t : Tick) : List Bytes → SweepState → SweepState
  | [], st => st
  | f :: files, st =>
    match t.info f with
    | .error err =>
      sweepFiles t files
        { st with
          log := st.log ++ [⟨.error, "Failed to get file info", [("file", f), ("error", err)]⟩] }
    | .ok info =>
      if timeSince (t.now f) info.modTime > 1 * timeHour then
        let filePath := filepathJoin (ascii "audio") f
        match t.removeErr filePath with
        | some err =>
          sweepFiles t files
            { st with
              log := st.log ++
                [⟨.error, "Failed to delete old audio file", [("file", filePath), ("error", err)]⟩],
              effects := st.effects ++ [.remove filePath] }
        | none =>
          sweepFiles t files
            { log := st.log ++ [⟨.info, "Deleted old audio file", [("file", filePath)]⟩],
              effects := st.effects ++ [.remove filePath],
              fs := st.fs.remove filePath }
      else sweepFiles t files st

/-- The body of the outer loop of `cleanupHelperFunc`: what one tick does. -/
def sweepTick (t : Tick) (st : SweepState) : SweepState :=
  let st1 : SweepState :=
    { st with log := st.log ++ [⟨.info, "Running audio file cleanup", []⟩] }
  match t.readDir with
  | .error err =>
    { st1 with
      log := st1.log ++ [⟨.error, "Failed to read audio directory", [("error", err)]⟩] }
  | .ok files => sweepFiles t files st1

/-- The goroutine of the source's `cleanupHelperFunc`, `for range time.Tick(1 * time.Hour)`,
run over the ticks that arrive, in order. -/
def cleanupHelperFunc : List Tick → SweepState → SweepState
  | [], st => st
  | t :: ticks, st => cleanupHelperFunc ticks (sweepTick t st)

/-- Whether one pass removes the entry named `f`: its `Info()` succeeds, its age
exceeds the hour, `os.Remove` succeeds. -/
def removesEntry (t : Tick) (f : Bytes) : Bool :=
  match t.info f with
  | .error _ => false
  | .ok info =>
    decide (timeSince (t.now f) info.modTime > 1 * timeHour)
      && (t.removeErr (filepathJoin (ascii "audio") f)).isNone

/-! ## Concrete worlds -/

/-- An empty file system. -/
def emptyFS : FS := { dirs := fun _ => false, files := fun _ => none }

/-- The scenario of the spec: input "He told her the news." / "drama", a generator
answering "She listened as he spoke.", a synthesizer answering bytes that begin
`0x49, 0x44, 0x33`. -/
def demoWorld : World :=
  { getenv := fun k =>
      if k = "DEEPSEEK_API_KEY" then ascii "sk-demo"
      else if k = "ELEVENLABS_API_KEY" then ascii "xi-demo" else [],
    postForm := fun k =>
      if k = "userInput" then ascii "He told her the news."
      else if k = "genreInput" then ascii "drama" else [],
    jsonMarshalRequest := fun _ => .ok (ascii "deepseek-request"),
    jsonMarshalElevenLabs := fun p => .ok p.text,
    newRequestErr := fun _ _ => none,
    httpDo := fun req =>
      if req.url = deepseekAPIURL then
        .ok { statusCode := 200, status := ascii "200 OK", body := ascii "choices",
              bodyErr := none }
      else
        .ok { statusCode := 200, status := ascii "200 OK", body := [0x49, 0x44, 0x33, 0x04],
              bodyErr := none },
    jsonUnmarshal := fun _ =>
      .ok { choices := [ { message := { role := ascii "assistant",
                                         content := ascii "She listened as he spoke." } } ] },
    uuidNew := ascii "123e4567-e89b-12d3-a456-426614174000",
    mkdirAllErr := fun _ => none,
    openFileErr := fun _ => none,
    writeFault := none,
    fs := emptyFS }

/-- The path of the audio file of `demoWorld`. -/
def demoPath : Bytes := ascii "audio/123e4567-e89b-12d3-a456-426614174000.mp3"

/-- A request with both form fields empty, to a server without API keys. -/
def noKeyWorld : World :=
  { demoWorld with getenv := fun _ => [], postForm := fun _ => [] }

/-- The scenario of `demoWorld` with an empty `genreInput`. -/
def emptyGenreWorld : World :=
  { demoWorld with
    postForm := fun k => if k = "userInput" then ascii "He told her the news." else [] }

/-- The scenario of `demoWorld` with a generator that answers no choice. -/
def zeroChoicesWorld : World :=
  { demoWorld with jsonUnmarshal := fun _ => .ok { choices := [] } }

/-- The scenario of `demoWorld` with a synthesizer that answers 401. -/
def synthRefusesWorld : World :=
  { demoWorld with
    httpDo := fun req =>
      if req.url = deepseekAPIURL then
        .ok { statusCode := 200, status := ascii "200 OK", body := ascii "choices",
              bodyErr := none }
      else
        .ok { statusCode := 401, status := ascii "401 Unauthorized",
              body := ascii "invalid api key", bodyErr := none } }

/-- The scenario of `demoWorld` with a synthesizer whose audio stream breaks after
two bytes: status 200, then `0x49, 0x44`, then an error instead of end-of-file. -/
def brokenStreamWorld : World :=
  { demoWorld with
    httpDo := fun req =>
      if req.url = deepseekAPIURL then
        .ok { statusCode := 200, status := ascii "200 OK", body := ascii "choices",
              bodyErr := none }
      else
        .ok { statusCode := 200, status := ascii "200 OK", body := [0x49, 0x44],
              bodyErr := some (ascii "unexpected EOF") } }

/-- The scenario of `demoWorld` where a longer file already has the new file's name. -/
def overwriteWorld : World :=
  { demoWorld with
    fs := { dirs := fun p => decide (p = ascii "audio"),
            files := fun p =>
              if p = demoPath then some [1, 2, 3, 4, 5, 6, 7, 8, 9, 10] else none } }

/-- Another failing run at the synthesizer's status check: other keys, other inputs,
another generated text, status 503 with another body. -/
def synthDownWorld : World :=
  { demoWorld with
    getenv := fun k =>
      if k = "DEEPSEEK_API_KEY" then ascii "sk-other"
      else if k = "ELEVENLABS_API_KEY" then ascii "xi-other" else [],
    postForm := fun k =>
      if k = "userInput" then ascii "It rained all night."
      else if k = "genreInput" then ascii "noir" else [],
    jsonUnmarshal := fun _ =>
      .ok { choices := [ { message := { role := ascii "assistant",
                                         content := ascii "He said it had rained." } } ] },
    httpDo := fun req =>
      if req.url = deepseekAPIURL then
        .ok { statusCode := 200, status := ascii "200 OK", body := ascii "choices",
              bodyErr := none }
      else
        .ok { statusCode := 503, status := ascii "503 Service Unavailable",
              body := ascii "upstream connect error", bodyErr := none } }

/-- A text with all five characters that `html.EscapeString` replaces. -/
def scriptText : Bytes := ascii "<script>alert(\"a&b\x27s\")</script>"

/-- The scenario of `demoWorld` with a generator that answers `scriptText`. -/
def scriptWorld : World :=
  { demoWorld with
    jsonUnmarshal := fun _ =>
      .ok { choices := [ { message := { role := ascii "assistant",
                                         content := scriptText } } ] } }

/-- The scenario of `demoWorld` with a generator that answers 500. -/
def generatorDownWorld : World :=
  { demoWorld with
    httpDo := fun req =>
      if req.url = deepseekAPIURL then
        .ok { statusCode := 500, status := ascii "500 Internal Server Error",
              body := ascii "upstream exhausted", bodyErr := none }
      else
        .ok { statusCode := 200, status := ascii "200 OK", body := [0x49, 0x44, 0x33, 0x04],
              bodyErr := none } }

/-- Two hours, in nanoseconds. -/
def twoHours : Int := 2 * timeHour

/-- Five minutes, in nanoseconds. -/
def fiveMinutes : Int := 300 * 1000000000

/-- A tick at instant `10 * timeHour` over a directory of two entries: `old.mp3`
modified two hours before, `fresh.mp3` five minutes before. -/
def demoTick : Tick :=
  { now := fun _ => 10 * timeHour,
    readDir := .ok [ascii "old.mp3", ascii "fresh.mp3"],
    info := fun f =>
      if f = ascii "old.mp3" then .ok { modTime := 10 * timeHour - twoHours }
      else if f = ascii "fresh.mp3" then .ok { modTime := 10 * timeHour - fiveMinutes }
      else .error (ascii "no such file or directory"),
    removeErr := fun _ => none }

/-- The directory `demoTick` lists. -/
def demoSweepState : SweepState :=
  { log := [], effects := [],
    fs := { dirs := fun p => decide (p = ascii "audio"),
            files := fun p =>
              if p = ascii "audio/old.mp3" then some [0x49, 0x44, 0x33]
              else if p = ascii "audio/fresh.mp3" then some [0x49, 0x44, 0x33, 0x04]
              else none } }

/-- A tick whose listing has an entry that cannot be stat-ed and an old entry that
cannot be removed in front of an old entry that can. -/
def troubledTick : Tick :=
  { now := fun _ => 10 * timeHour,
    readDir := .ok [ascii "gone.mp3", ascii "locked.mp3", ascii "old.mp3"],
    info := fun f =>
      if f = ascii "gone.mp3" then .error (ascii "no such file or directory")
      else .ok { modTime := 10 * timeHour - twoHours },
    removeErr := fun p =>
      if p = ascii "audio/locked.mp3" then some (ascii "permission denied") else none }

/-- A tick on which the directory cannot be listed. -/
def blindTick : Tick :=
  { demoTick with readDir := .error (ascii "open audio: too many open files") }

/-! ## Lemmas on the model -/

/-- A copy that returns no error has written the whole stream. -/
theorem ioCopy_complete (fault : Option (Nat × GoError)) (resp : HttpResponse)
    (h : (ioCopy fault resp).2 = none) : (ioCopy fault resp).1 = resp.body := by
  unfold ioCopy at h ⊢
  split
  · split
    · rename_i hlt; simp [hlt] at h
    · rfl
  · rfl

/-- After `MkdirAll`, `OpenFile` with `O_CREATE|O_TRUNC` and a write of `data`, the
file holds `data`, whatever it held before. -/
theorem files_after_truncating_write (fs : FS) (dir path data : Bytes) :
    ((((fs.mkdirAll dir).openFile path true true).write path data).files path) = some data := by
  cases hf : fs.files path <;> simp [FS.write, FS.openFile, FS.mkdirAll, hf]

/-- A copy from a stream that breaks returns an error. -/
theorem ioCopy_of_broken_stream (fault : Option (Nat × GoError)) (resp : HttpResponse)
    (err : GoError) (h : resp.bodyErr = some err) : ∃ e, (ioCopy fault resp).2 = some e := by
  unfold ioCopy
  split
  · split
    · exact ⟨_, rfl⟩
    · exact ⟨err, h⟩
  · exact ⟨err, h⟩

/-- Escaping goes byte by byte. -/
theorem htmlEscape_cons (c : Nat) (s : Bytes) :
    htmlEscape (c :: s) = htmlEscapeByte c ++ htmlEscape s := by
  simp [htmlEscape]

/-- Escaping loses nothing: decoding the entities gives the text back. -/
theorem htmlUnescape_htmlEscape (s : Bytes) : htmlUnescape (htmlEscape s) = s := by
  unfold htmlUnescape
  induction s with
  | nil => rfl
  | cons c s ih =>
    rw [htmlEscape_cons]
    unfold htmlEscapeByte
    split_ifs with h1 h2 h3 h4 h5
    · subst h1; simp [ascii, htmlUnescapeFrom, ih]
    · subst h2; simp [ascii, htmlUnescapeFrom, ih]
    · subst h3; simp [ascii, htmlUnescapeFrom, ih]
    · subst h4; simp [ascii, htmlUnescapeFrom, ih]
    · subst h5; simp [ascii, htmlUnescapeFrom, ih]
    · simp [htmlUnescapeFrom, h1, ih]

/-- Escaped text has no `<` (60), `>` (62), double quote (34) or apostrophe (39). -/
theorem htmlEscape_no_raw (s : Bytes) :
    ∀ c ∈ htmlEscape s, c ≠ 60 ∧ c ≠ 62 ∧ c ≠ 34 ∧ c ≠ 39 := by
  induction s with
  | nil => simp [htmlEscape]
  | cons b s ih =>
    intro c hc
    rw [htmlEscape_cons, List.mem_append] at hc
    rcases hc with hc | hc
    · unfold htmlEscapeByte at hc
      split_ifs at hc with h1 h2 h3 h4 h5
      all_goals simp [ascii] at hc
      all_goals omega
    · exact ih c hc

/-- A failing run's body is the fragment that belongs to the check it stopped at. -/
theorem failing_body_of_check (w : World) (h : (logicAPIHandler w).status ≠ 200) :
    ∃ msg, failedCheck (logicAPIHandler w) = some msg
      ∧ (logicAPIHandler w).body = errorFragmentOf msg := by
  revert h
  unfold logicAPIHandler
  simp only []
  repeat' split
  all_goals simp [respond, failedCheck, errorFragmentOf, httpStatusOK,
    httpStatusInternalServerError, httpStatusBadRequest]

/-- A failing run's body is one of the twelve error fragments. -/
theorem failing_body_mem (w : World) (h : (logicAPIHandler w).status ≠ 200) :
    (logicAPIHandler w).body ∈ errorFragments := by
  revert h
  unfold logicAPIHandler
  simp only []
  repeat' split
  all_goals simp [respond, errorFragments, httpStatusOK, httpStatusInternalServerError,
    httpStatusBadRequest]

/-- The sweeper's comparison, with the saturation of `time.Duration` taken away. -/
theorem timeSince_gt_hour (now t : Int) :
    timeSince now t > 1 * timeHour ↔ now - t > timeHour := by
  unfold timeSince maxDuration minDuration timeHour
  norm_num
  split_ifs <;> omega

/-- Two names with the same path under one directory are the same name. -/
theorem filepathJoin_inj (dir f g : Bytes) (h : filepathJoin dir f = filepathJoin dir g) :
    f = g := by
  unfold filepathJoin at h
  exact List.append_cancel_left h

/-- The files after the inner loop: a path is gone when the loop removes an entry
with that path, and is as before otherwise. -/
theorem sweepFiles_files (t : Tick) (files : List Bytes) :
    ∀ (st : SweepState) (p : Bytes),
      (sweepFiles t files st).fs.files p
        = if (∃ f ∈ files, removesEntry t f = true ∧ filepathJoin (ascii "audio") f = p)
            then none else st.fs.files p := by
  induction files with
  | nil => intro st p; simp [sweepFiles]
  | cons f files ih =>
    intro st p
    unfold sweepFiles
    cases hinfo : t.info f with
    | error err =>
      have hre : removesEntry t f = false := by simp [removesEntry, hinfo]
      simp only [ih]
      simp [hre]
    | ok info =>
      simp only []
      by_cases hage : timeSince (t.now f) info.modTime > 1 * timeHour
      · simp only [hage, if_true]
        cases hrm : t.removeErr (filepathJoin (ascii "audio") f) with
        | some err =>
          have hre : removesEntry t f = false := by simp [removesEntry, hinfo, hrm]
          simp only [ih]
          simp [hre]
        | none =>
          have hre : removesEntry t f = true := by
            simp only [removesEntry, hinfo, hrm]
            simpa using hage
          simp only [ih]
          by_cases hp : filepathJoin (ascii "audio") f = p
          · subst hp
            simp [hre, FS.remove]
          · have hp' : ¬ p = filepathJoin (ascii "audio") f := fun h => hp h.symm
            simp [hre, hp, hp', FS.remove]
      · have hlt : ¬ timeHour < timeSince (t.now f) info.modTime := by simpa using hage
        have hre : removesEntry t f = false := by simp [removesEntry, hinfo, hlt]
        simp only [hage, if_false]
        simp only [ih]
        simp [hre]

/-- The files after one tick whose listing succeeds. -/
theorem sweepTick_files (t : Tick) (st : SweepState) (files : List Bytes)
    (hdir : t.readDir = .ok files) (p : Bytes) :
    (sweepTick t st).fs.files p
      = if (∃ f ∈ files, removesEntry t f = true ∧ filepathJoin (ascii "audio") f = p)
          then none else st.fs.files p := by
  simp [sweepTick, hdir, sweepFiles_files]

/-- The inner loop's file system depends on the file system it starts from only. -/
theorem sweepFiles_fs_congr (t : Tick) (files : List Bytes) :
    ∀ (st st' : SweepState), st.fs = st'.fs →
      (sweepFiles t files st).fs = (sweepFiles t files st').fs := by
  induction files with
  | nil => intro st st' h; simpa [sweepFiles] using h
  | cons f files ih =>
    intro st st' h
    unfold sweepFiles
    cases t.info f with
    | error err => exact ih _ _ h
    | ok info =>
      simp only []
      split
      · cases t.removeErr (filepathJoin (ascii "audio") f) with
        | some err => exact ih _ _ h
        | none => exact ih _ _ (by simp [h])
      · exact ih _ _ h

/-- One tick's file system depends on the file system it starts from only. -/
theorem sweepTick_fs_congr (t : Tick) (st st' : SweepState) (h : st.fs = st'.fs) :
    (sweepTick t st).fs = (sweepTick t st').fs := by
  unfold sweepTick
  cases t.readDir with
  | error err => simpa using h
  | ok files => exact sweepFiles_fs_congr t files _ _ h

/-- The loop's file system depends on the file system it starts from only. -/
theorem cleanupHelperFunc_fs_congr (ticks : List Tick) :
    ∀ (st st' : SweepState), st.fs = st'.fs →
      (cleanupHelperFunc ticks st).fs = (cleanupHelperFunc ticks st').fs := by
  induction ticks with
  | nil => intro st st' h; simpa [cleanupHelperFunc] using h
  | cons t ticks ih =>
    intro st st' h
    simp only [cleanupHelperFunc]
    exact ih _ _ (sweepTick_fs_congr t st st' h)

/-! ## The claims -/

/-- Claim C1: with both API keys set, non-empty valid-UTF-8 `userInput` and
`genreInput`, a generator response of status 200 whose first choice has content `t`,
a synthesizer response of status 200 whose body delivers the bytes `b`, and no
failure of `MkdirAll`, `OpenFile` or the write, `logicAPIHandler` answers 200 with
the fragment in which `htmlEscape t` and `/audio/<id>.mp3` stand; the text so
embedded is HTML-escaped: it has no raw `<`, `>`, double quote or apostrophe, and
reading its entities back gives `t`; the file `audio/<id>.mp3`, with the same
`<id>`, is opened and written in this request, holds `b`, and is not empty when `b`
is not. -/
theorem create_success_fragment_and_audio (w : World) (reqBytes ttsBytes t b : Bytes)
    (genResp ttsResp : HttpResponse) (parsed : ResponsePayload) (choice0 : Choice)
    (others : List Choice)
    (hk1 : w.getenv "DEEPSEEK_API_KEY" ≠ [])
    (hk2 : w.getenv "ELEVENLABS_API_KEY" ≠ [])
    (hu : w.postForm "userInput" ≠ [])
    (hg : w.postForm "genreInput" ≠ [])
    (huv : utf8ValidString (w.postForm "userInput") = true)
    (hgv : utf8ValidString (w.postForm "genreInput") = true)
    (hmarshal : w.jsonMarshalRequest
        (deepseekPayload (w.postForm "genreInput") (w.postForm "userInput")) = .ok reqBytes)
    (hnew : w.newRequestErr (ascii "POST") deepseekAPIURL = none)
    (hdo : w.httpDo (deepseekRequest (w.getenv "DEEPSEEK_API_KEY") reqBytes) = .ok genResp)
    (hstatus : genResp.statusCode = 200)
    (hread : genResp.bodyErr = none)
    (hparse : w.jsonUnmarshal genResp.body = .ok parsed)
    (hchoices : parsed.choices = choice0 :: others)
    (htext : choice0.message.content = t)
    (hmarshal2 : w.jsonMarshalElevenLabs (elevenLabsPayload t) = .ok ttsBytes)
    (hnew2 : w.newRequestErr (ascii "POST") elevenLabsAPIURL = none)
    (hdo2 : w.httpDo (elevenLabsRequest (w.getenv "ELEVENLABS_API_KEY") ttsBytes) = .ok ttsResp)
    (hstatus2 : ttsResp.statusCode = 200)
    (hbody2 : ttsResp.body = b)
    (hread2 : ttsResp.bodyErr = none)
    (hmkdir : w.mkdirAllErr (ascii "audio") = none)
    (hopen : w.openFileErr (tempFile w.uuidNew) = none)
    (hwrite : w.writeFault = none) :
    (logicAPIHandler w).status = 200
      ∧ (logicAPIHandler w).body
          = audioHTMLHead ++ htmlEscape t ++ audioHTMLMid
              ++ (ascii "/audio/" ++ w.uuidNew ++ ascii ".mp3") ++ audioHTMLTail
      ∧ htmlEscape t <:+: (logicAPIHandler w).body
      ∧ (∀ c ∈ htmlEscape t, c ≠ 60 ∧ c ≠ 62 ∧ c ≠ 34 ∧ c ≠ 39)
      ∧ htmlUnescape (htmlEscape t) = t
      ∧ (ascii "/audio/" ++ w.uuidNew ++ ascii ".mp3") <:+: (logicAPIHandler w).body
      ∧ tempFile w.uuidNew = ascii "audio/" ++ w.uuidNew ++ ascii ".mp3"
      ∧ (logicAPIHandler w).effects
          = [ Effect.httpDo (deepseekRequest (w.getenv "DEEPSEEK_API_KEY") reqBytes),
              Effect.httpDo (elevenLabsRequest (w.getenv "ELEVENLABS_API_KEY") ttsBytes),
              Effect.mkdirAll (ascii "audio") 0o755,
              Effect.openFile (tempFile w.uuidNew) 0o644,
              Effect.write (tempFile w.uuidNew) b ]
      ∧ (logicAPIHandler w).fs.files (tempFile w.uuidNew) = some b
      ∧ (b ≠ [] → (logicAPIHandler w).fs.files (tempFile w.uuidNew) ≠ some []) := by
  have hcopy : ioCopy w.writeFault ttsResp = (b, none) := by
    simp [ioCopy, hwrite, hbody2, hread2]
  have hrun : logicAPIHandler w
      = respond 200 (audioHTML (htmlEscape t) (ascii "/audio/" ++ w.uuidNew))
          [⟨.info, "DeepSeek response received", [("text", t)]⟩,
            ⟨.info, "Audio response sent to client", []⟩]
          [ Effect.httpDo (deepseekRequest (w.getenv "DEEPSEEK_API_KEY") reqBytes),
            Effect.httpDo (elevenLabsRequest (w.getenv "ELEVENLABS_API_KEY") ttsBytes),
            Effect.mkdirAll (ascii "audio") 0o755,
            Effect.openFile (tempFile w.uuidNew) 0o644,
            Effect.write (tempFile w.uuidNew) b ]
          ((((w.fs.mkdirAll (ascii "audio")).openFile (tempFile w.uuidNew) true true).write
              (tempFile w.uuidNew) b)) := by
    simp [logicAPIHandler, hk1, hk2, hu, hg, huv, hgv, hmarshal, hnew, hdo, hstatus, hread,
      hparse, hchoices, htext, hmarshal2, hnew2, hdo2, hstatus2, hmkdir, hopen, hcopy,
      httpStatusOK]
  have hfile : (logicAPIHandler w).fs.files (tempFile w.uuidNew) = some b := by
    rw [hrun]; exact files_after_truncating_write _ _ _ _
  refine ⟨by rw [hrun]; rfl, by rw [hrun]; simp [respond, audioHTML], ?_,
    htmlEscape_no_raw t, htmlUnescape_htmlEscape t, ?_, ?_,
    by rw [hrun]; rfl, hfile, fun hb => by rw [hfile]; simpa using hb⟩
  · rw [hrun]
    exact ⟨audioHTMLHead,
      audioHTMLMid ++ (ascii "/audio/" ++ w.uuidNew) ++ ascii ".mp3" ++ audioHTMLTail,
      by simp [respond, audioHTML]⟩
  · rw [hrun]
    exact ⟨audioHTMLHead ++ htmlEscape t ++ audioHTMLMid, audioHTMLTail,
      by simp [respond, audioHTML]⟩
  · simp [tempFile, filepathJoin, ascii]

/-- The scenario of the spec: the generated text "She listened as he spoke." is its
own escape and stands in the fragment; the new file holds the synthesizer's bytes.
And a generated text with all five special characters stands in the fragment with
each of them replaced by its entity. -/
theorem create_success_demo :
    (logicAPIHandler demoWorld).status = 200
      ∧ htmlEscape (ascii "She listened as he spoke.") = ascii "She listened as he spoke."
      ∧ htmlEscape (ascii "She listened as he spoke.") <:+: (logicAPIHandler demoWorld).body
      ∧ (logicAPIHandler demoWorld).fs.files (tempFile demoWorld.uuidNew)
          = some [0x49, 0x44, 0x33, 0x04]
      ∧ htmlEscape scriptText
          = ascii "&lt;script&gt;alert(&#34;a&amp;b&#39;s&#34;)&lt;/script&gt;"
      ∧ htmlEscape scriptText <:+: (logicAPIHandler scriptWorld).body :=
  have h := create_success_fragment_and_audio demoWorld (ascii "deepseek-request")
    (ascii "She listened as he spoke.") (ascii "She listened as he spoke.")
    [0x49, 0x44, 0x33, 0x04]
    { statusCode := 200, status := ascii "200 OK", body := ascii "choices", bodyErr := none }
    { statusCode := 200, status := ascii "200 OK", body := [0x49, 0x44, 0x33, 0x04],
      bodyErr := none }
    { choices := [ { message := { role := ascii "assistant",
                                   content := ascii "She listened as he spoke." } } ] }
    { message := { role := ascii "assistant", content := ascii "She listened as he spoke." } }
    [] (by decide) (by decide) (by decide) (by decide) (by decide) (by decide) rfl rfl
    rfl rfl rfl rfl rfl rfl rfl rfl rfl rfl rfl rfl rfl rfl rfl
  have hs := create_success_fragment_and_audio scriptWorld (ascii "deepseek-request")
    scriptText scriptText [0x49, 0x44, 0x33, 0x04]
    { statusCode := 200, status := ascii "200 OK", body := ascii "choices", bodyErr := none }
    { statusCode := 200, status := ascii "200 OK", body := [0x49, 0x44, 0x33, 0x04],
      bodyErr := none }
    { choices := [ { message := { role := ascii "assistant", content := scriptText } } ] }
    { message := { role := ascii "assistant", content := scriptText } }
    [] (by decide) (by decide) (by decide) (by decide) (by decide) (by decide) rfl rfl
    rfl rfl rfl rfl rfl rfl rfl rfl rfl rfl rfl rfl rfl rfl rfl
  ⟨h.1, by decide, h.2.2.1, h.2.2.2.2.2.2.2.2.1, by decide, hs.2.2.1⟩

/-- Claim C2, as the code has it: when `userInput` or `genreInput` is empty or not
valid UTF-8, `logicAPIHandler` makes no outbound call and touches no file; its
status is 400 when both API keys are set and 500 when one is missing. -/
theorem invalid_input_no_external_call (w : World)
    (hbad : w.postForm "userInput" = [] ∨ w.postForm "genreInput" = []
      ∨ utf8ValidString (w.postForm "userInput") = false
      ∨ utf8ValidString (w.postForm "genreInput") = false) :
    (logicAPIHandler w).effects = []
      ∧ (logicAPIHandler w).fs = w.fs
      ∧ ((w.getenv "DEEPSEEK_API_KEY" ≠ [] ∧ w.getenv "ELEVENLABS_API_KEY" ≠ [])
          → (logicAPIHandler w).status = 400)
      ∧ ((w.getenv "DEEPSEEK_API_KEY" = [] ∨ w.getenv "ELEVENLABS_API_KEY" = [])
          → (logicAPIHandler w).status = 500) := by
  by_cases hkey : w.getenv "DEEPSEEK_API_KEY" = [] ∨ w.getenv "ELEVENLABS_API_KEY" = []
  · have hrun : logicAPIHandler w
        = respond 500 (ascii "<div class=\"text-red-600\">Server configuration error</div>")
            [⟨.error, "Missing API keys", []⟩] [] w.fs := by
      simp [logicAPIHandler, hkey, httpStatusInternalServerError]
    refine ⟨by rw [hrun]; rfl, by rw [hrun]; rfl, fun hk => ?_, fun _ => by rw [hrun]; rfl⟩
    rcases hkey with h | h
    · exact absurd h hk.1
    · exact absurd h hk.2
  · by_cases hempty : w.postForm "userInput" = [] ∨ w.postForm "genreInput" = []
    · have hk := not_or.mp hkey
      simp [logicAPIHandler, hkey, hempty, respond, httpStatusBadRequest, hk.1, hk.2]
    · have hinv : utf8ValidString (w.postForm "userInput") = false
          ∨ utf8ValidString (w.postForm "genreInput") = false := by
        rcases hbad with h | h | h | h
        · exact absurd (Or.inl h) hempty
        · exact absurd (Or.inr h) hempty
        · exact Or.inl h
        · exact Or.inr h
      have hk := not_or.mp hkey
      simp [logicAPIHandler, hkey, hempty, hinv, respond, httpStatusBadRequest, hk.1, hk.2]

/-- An empty `genreInput` with both keys set: status 400 and no effect. -/
theorem invalid_input_empty_genre :
    emptyGenreWorld.postForm "genreInput" = []
      ∧ (logicAPIHandler emptyGenreWorld).effects = []
      ∧ (logicAPIHandler emptyGenreWorld).status = 400 :=
  ⟨by decide, (invalid_input_no_external_call emptyGenreWorld (by decide)).1,
    (invalid_input_no_external_call emptyGenreWorld (by decide)).2.2.1 (by decide)⟩

/-- Claim C2 as stated fails: with an empty `userInput` and no API key in the
environment the status is 500, not a 400-class one. -/
theorem invalid_input_without_keys_is_500 :
    noKeyWorld.postForm "userInput" = []
      ∧ (logicAPIHandler noKeyWorld).status = 500
      ∧ ¬ (400 ≤ (logicAPIHandler noKeyWorld).status
            ∧ (logicAPIHandler noKeyWorld).status < 500) := by
  decide

/-- Claim C3: when the DeepSeek key or the ElevenLabs key is empty in the
environment, `logicAPIHandler` answers 500 with the fixed fragment
"Server configuration error", makes no outbound call, performs no file operation and
leaves the file system as it was, whatever the form fields are. -/
theorem missing_api_key_configuration_error (w : World)
    (hkey : w.getenv "DEEPSEEK_API_KEY" = [] ∨ w.getenv "ELEVENLABS_API_KEY" = []) :
    (logicAPIHandler w).status = 500
      ∧ (logicAPIHandler w).body
          = ascii "<div class=\"text-red-600\">Server configuration error</div>"
      ∧ (logicAPIHandler w).effects = []
      ∧ (logicAPIHandler w).fs = w.fs := by
  simp [logicAPIHandler, hkey, respond, httpStatusInternalServerError]

/-- No key at all: status 500 and no effect. -/
theorem missing_api_key_demo :
    (logicAPIHandler noKeyWorld).status = 500 ∧ (logicAPIHandler noKeyWorld).effects = [] :=
  ⟨(missing_api_key_configuration_error noKeyWorld (Or.inl rfl)).1,
    (missing_api_key_configuration_error noKeyWorld (Or.inl rfl)).2.2.1⟩

/-- Claim C4: for a valid request whose generator response has status 200 and a body
that parses to zero choices, `logicAPIHandler` answers 500 with the fragment
"No response from DeepSeek"; its only effect is the call to DeepSeek, so the
synthesizer is never called, and the file system is as it was. -/
theorem zero_choices_generator_error (w : World) (payloadBytes : Bytes) (resp : HttpResponse)
    (parsed : ResponsePayload)
    (hk1 : w.getenv "DEEPSEEK_API_KEY" ≠ [])
    (hk2 : w.getenv "ELEVENLABS_API_KEY" ≠ [])
    (hu : w.postForm "userInput" ≠ [])
    (hg : w.postForm "genreInput" ≠ [])
    (huv : utf8ValidString (w.postForm "userInput") = true)
    (hgv : utf8ValidString (w.postForm "genreInput") = true)
    (hmarshal : w.jsonMarshalRequest
        (deepseekPayload (w.postForm "genreInput") (w.postForm "userInput")) = .ok payloadBytes)
    (hnew : w.newRequestErr (ascii "POST") deepseekAPIURL = none)
    (hdo : w.httpDo (deepseekRequest (w.getenv "DEEPSEEK_API_KEY") payloadBytes) = .ok resp)
    (hstatus : resp.statusCode = 200)
    (hread : resp.bodyErr = none)
    (hparse : w.jsonUnmarshal resp.body = .ok parsed)
    (hzero : parsed.choices = []) :
    (logicAPIHandler w).status = 500
      ∧ (logicAPIHandler w).body
          = ascii "<div class=\"text-red-600\">No response from DeepSeek</div>"
      ∧ failedCheck (logicAPIHandler w) = some "No choices in DeepSeek response"
      ∧ (logicAPIHandler w).effects
          = [Effect.httpDo (deepseekRequest (w.getenv "DEEPSEEK_API_KEY") payloadBytes)]
      ∧ (deepseekRequest (w.getenv "DEEPSEEK_API_KEY") payloadBytes).url ≠ elevenLabsAPIURL
      ∧ (logicAPIHandler w).fs = w.fs := by
  have hurl : deepseekAPIURL ≠ elevenLabsAPIURL := by decide
  refine ⟨?_, ?_, ?_, ?_, hurl, ?_⟩ <;>
    simp [logicAPIHandler, hk1, hk2, hu, hg, huv, hgv, hmarshal, hnew, hdo, hstatus, hread,
      hparse, hzero, respond, failedCheck, httpStatusInternalServerError, httpStatusOK]

/-- A generator that answers no choice: status 500, file system untouched. -/
theorem zero_choices_demo :
    (logicAPIHandler zeroChoicesWorld).status = 500
      ∧ (logicAPIHandler zeroChoicesWorld).fs = zeroChoicesWorld.fs :=
  have h := zero_choices_generator_error zeroChoicesWorld (ascii "deepseek-request")
    { statusCode := 200, status := ascii "200 OK", body := ascii "choices", bodyErr := none }
    { choices := [] }
    (by decide) (by decide) (by decide) (by decide) (by decide) (by decide) rfl rfl
    rfl rfl rfl rfl rfl
  ⟨h.1, h.2.2.2.2.2⟩

/-- Claim C5: for a valid request whose generator stage succeeds and whose
synthesizer response has a status other than 200, `logicAPIHandler` answers 500 with
the fragment "ElevenLabs API error"; its effects are the two outbound calls and no
file operation (no `MkdirAll`, no `OpenFile`, no write), and the file system,
directories included, is as it was. -/
theorem synthesizer_status_error_no_file (w : World) (reqBytes ttsBytes : Bytes)
    (genResp ttsResp : HttpResponse) (parsed : ResponsePayload) (choice0 : Choice)
    (others : List Choice)
    (hk1 : w.getenv "DEEPSEEK_API_KEY" ≠ [])
    (hk2 : w.getenv "ELEVENLABS_API_KEY" ≠ [])
    (hu : w.postForm "userInput" ≠ [])
    (hg : w.postForm "genreInput" ≠ [])
    (huv : utf8ValidString (w.postForm "userInput") = true)
    (hgv : utf8ValidString (w.postForm "genreInput") = true)
    (hmarshal : w.jsonMarshalRequest
        (deepseekPayload (w.postForm "genreInput") (w.postForm "userInput")) = .ok reqBytes)
    (hnew : w.newRequestErr (ascii "POST") deepseekAPIURL = none)
    (hdo : w.httpDo (deepseekRequest (w.getenv "DEEPSEEK_API_KEY") reqBytes) = .ok genResp)
    (hstatus : genResp.statusCode = 200)
    (hread : genResp.bodyErr = none)
    (hparse : w.jsonUnmarshal genResp.body = .ok parsed)
    (hchoices : parsed.choices = choice0 :: others)
    (hmarshal2 : w.jsonMarshalElevenLabs (elevenLabsPayload choice0.message.content)
        = .ok ttsBytes)
    (hnew2 : w.newRequestErr (ascii "POST") elevenLabsAPIURL = none)
    (hdo2 : w.httpDo (elevenLabsRequest (w.getenv "ELEVENLABS_API_KEY") ttsBytes) = .ok ttsResp)
    (hstatus2 : ttsResp.statusCode ≠ 200) :
    (logicAPIHandler w).status = 500
      ∧ (logicAPIHandler w).body
          = ascii "<div class=\"text-red-600\">ElevenLabs API error</div>"
      ∧ failedCheck (logicAPIHandler w) = some "ElevenLabs API error"
      ∧ (logicAPIHandler w).effects
          = [ Effect.httpDo (deepseekRequest (w.getenv "DEEPSEEK_API_KEY") reqBytes),
              Effect.httpDo (elevenLabsRequest (w.getenv "ELEVENLABS_API_KEY") ttsBytes) ]
      ∧ (∀ e ∈ (logicAPIHandler w).effects, e.isFileOp = false)
      ∧ (logicAPIHandler w).fs = w.fs := by
  simp [logicAPIHandler, hk1, hk2, hu, hg, huv, hgv, hmarshal, hnew, hdo, hstatus, hread,
    hparse, hchoices, hmarshal2, hnew2, hdo2, hstatus2, respond, failedCheck,
    httpStatusInternalServerError, httpStatusOK, Effect.isFileOp]

/-- A synthesizer that answers 401: status 500, file system untouched. -/
theorem synthesizer_401_demo :
    (logicAPIHandler synthRefusesWorld).status = 500
      ∧ (logicAPIHandler synthRefusesWorld).fs = synthRefusesWorld.fs :=
  have h := synthesizer_status_error_no_file synthRefusesWorld (ascii "deepseek-request")
    (ascii "She listened as he spoke.")
    { statusCode := 200, status := ascii "200 OK", body := ascii "choices", bodyErr := none }
    { statusCode := 401, status := ascii "401 Unauthorized", body := ascii "invalid api key",
      bodyErr := none }
    { choices := [ { message := { role := ascii "assistant",
                                   content := ascii "She listened as he spoke." } } ] }
    { message := { role := ascii "assistant", content := ascii "She listened as he spoke." } }
    [] (by decide) (by decide) (by decide) (by decide) (by decide) (by decide) rfl rfl
    rfl rfl rfl rfl rfl rfl rfl rfl (by decide)
  ⟨h.1, h.2.2.2.2.2⟩

/-- Claim C6: whenever `logicAPIHandler` completes with status 200, its second
outbound call is the synthesizer request, that call was answered with status 200,
and the file `audio/<id>.mp3` holds exactly the bytes of that response's body,
whatever the file system held before (an existing file of that name is truncated). -/
theorem audio_file_roundtrip (w : World) (h : (logicAPIHandler w).status = 200) :
    ∃ payloadBytes resp,
      w.httpDo (elevenLabsRequest (w.getenv "ELEVENLABS_API_KEY") payloadBytes) = .ok resp
        ∧ resp.statusCode = 200
        ∧ (logicAPIHandler w).effects.get? 1
            = some (Effect.httpDo
                (elevenLabsRequest (w.getenv "ELEVENLABS_API_KEY") payloadBytes))
        ∧ (logicAPIHandler w).fs.files (tempFile w.uuidNew) = some resp.body := by
  revert h
  unfold logicAPIHandler
  simp only []
  repeat' split
  all_goals try (simp [respond, httpStatusOK, httpStatusInternalServerError,
    httpStatusBadRequest]; done)
  intro _h200
  rename_i hdo hst _ _ _ _ _ hcopy
  refine ⟨_, _, hdo, ?_, ?_, ?_⟩
  · simpa [httpStatusOK] using hst
  · simp [respond]
  · simp only [respond]
    rw [ioCopy_complete _ _ hcopy]
    exact files_after_truncating_write _ _ _ _

/-- Bytes beginning `0x49, 0x44, 0x33` written over a longer file of the same name:
the file holds the new bytes only. -/
theorem audio_file_roundtrip_overwrite :
    overwriteWorld.fs.files demoPath = some [1, 2, 3, 4, 5, 6, 7, 8, 9, 10]
      ∧ (logicAPIHandler overwriteWorld).fs.files demoPath = some [0x49, 0x44, 0x33, 0x04]
      ∧ ∃ payloadBytes resp,
          overwriteWorld.httpDo
              (elevenLabsRequest (overwriteWorld.getenv "ELEVENLABS_API_KEY") payloadBytes)
            = .ok resp
          ∧ resp.statusCode = 200
          ∧ (logicAPIHandler overwriteWorld).effects.get? 1
              = some (Effect.httpDo
                  (elevenLabsRequest (overwriteWorld.getenv "ELEVENLABS_API_KEY") payloadBytes))
          ∧ (logicAPIHandler overwriteWorld).fs.files (tempFile overwriteWorld.uuidNew)
              = some resp.body :=
  ⟨by decide, by decide, audio_file_roundtrip overwriteWorld (by decide)⟩

/-- Claim C7: in one pass of the sweeper run at the instant `now`, an entry of the
listing whose `Info()` and `os.Remove` succeed is deleted when `now` minus its
modification time is strictly more than one hour and is left as it was otherwise;
so an existing entry is gone afterwards if and only if its age exceeds the hour, and
an entry aged exactly one hour stays. -/
theorem sweep_deletes_iff_older_than_hour (t : Tick) (st : SweepState) (now : Int)
    (files : List Bytes) (f : Bytes) (fi : FileInfo)
    (hnow : ∀ g, t.now g = now)
    (hdir : t.readDir = .ok files)
    (hf : f ∈ files)
    (hstat : t.info f = .ok fi)
    (hremove : t.removeErr (filepathJoin (ascii "audio") f) = none) :
    ((sweepTick t st).fs.files (filepathJoin (ascii "audio") f)
        = if now - fi.modTime > timeHour then none
          else st.fs.files (filepathJoin (ascii "audio") f))
      ∧ (st.fs.files (filepathJoin (ascii "audio") f) ≠ none →
          ((sweepTick t st).fs.files (filepathJoin (ascii "audio") f) = none
            ↔ now - fi.modTime > timeHour))
      ∧ (now - fi.modTime ≤ timeHour →
          (sweepTick t st).fs.files (filepathJoin (ascii "audio") f)
            = st.fs.files (filepathJoin (ascii "audio") f)) := by
  have hkey : (∃ g ∈ files, removesEntry t g = true
        ∧ filepathJoin (ascii "audio") g = filepathJoin (ascii "audio") f)
      ↔ now - fi.modTime > timeHour := by
    constructor
    · rintro ⟨g, _, hg, hpath⟩
      have hgf : g = f := filepathJoin_inj _ _ _ hpath
      subst hgf
      simp only [removesEntry, hstat, Bool.and_eq_true, decide_eq_true_eq] at hg
      rw [hnow] at hg
      exact (timeSince_gt_hour _ _).mp hg.1
    · intro hage
      refine ⟨f, hf, ?_, rfl⟩
      simp only [removesEntry, hstat, Bool.and_eq_true, decide_eq_true_eq, hremove, hnow]
      exact ⟨(timeSince_gt_hour _ _).mpr hage, rfl⟩
  have hmain : (sweepTick t st).fs.files (filepathJoin (ascii "audio") f)
      = if now - fi.modTime > timeHour then none
        else st.fs.files (filepathJoin (ascii "audio") f) := by
    rw [sweepTick_files t st files hdir]
    by_cases hage : now - fi.modTime > timeHour
    · rw [if_pos (hkey.mpr hage), if_pos hage]
    · rw [if_neg (fun h => hage (hkey.mp h)), if_neg hage]
  refine ⟨hmain, fun hpresent => ?_, fun hyoung => ?_⟩
  · rw [hmain]
    by_cases hage : now - fi.modTime > timeHour
    · simp [hage]
    · simp [hage, hpresent]
  · rw [hmain, if_neg (by omega)]

/-- One file modified two hours ago and one modified five minutes ago: after the
pass the first is gone and the second is there with its content. -/
theorem sweep_two_files_demo :
    (sweepTick demoTick demoSweepState).fs.files (ascii "audio/old.mp3") = none
      ∧ (sweepTick demoTick demoSweepState).fs.files (ascii "audio/fresh.mp3")
          = some [0x49, 0x44, 0x33, 0x04] :=
  ⟨(sweep_deletes_iff_older_than_hour demoTick demoSweepState (10 * timeHour)
      [ascii "old.mp3", ascii "fresh.mp3"] (ascii "old.mp3")
      { modTime := 10 * timeHour - twoHours } (fun _ => rfl) rfl (by decide) rfl rfl).1,
   (sweep_deletes_iff_older_than_hour demoTick demoSweepState (10 * timeHour)
      [ascii "old.mp3", ascii "fresh.mp3"] (ascii "fresh.mp3")
      { modTime := 10 * timeHour - fiveMinutes } (fun _ => rfl) rfl (by decide) rfl rfl).1⟩

/-- Claim C8, as the code has it: whenever one of the two upstream stages fails (the
call to DeepSeek fails, DeepSeek answers another status than 200, its body cannot be
read or parsed or has no choice, the call to ElevenLabs fails, ElevenLabs answers
another status than 200, or its audio stream breaks after the 200 status) the
request ends with an error response: status 500 and one of the constant error
fragments. For every such failure but the broken audio stream, the handler performs
no file operation and the file system is as it was. -/
theorem upstream_failure_error_response (w : World) (stage : Stage)
    (hfail : UpstreamFailure w stage) :
    (logicAPIHandler w).status = 500
      ∧ (logicAPIHandler w).body ∈ errorFragments
      ∧ (stage ≠ Stage.audioStream →
          (∀ e ∈ (logicAPIHandler w).effects, e.isFileOp = false)
            ∧ (logicAPIHandler w).fs = w.fs) := by
  cases hfail with
  | generatorCall reqBytes err hcalled hdo =>
    obtain ⟨hk1, hk2, hu, hg, huv, hgv, hmarshal, hnew⟩ := hcalled
    simp [logicAPIHandler, hk1, hk2, hu, hg, huv, hgv, hmarshal, hnew, hdo, respond,
      errorFragments, httpStatusInternalServerError, httpStatusOK, Effect.isFileOp]
  | generatorStatus reqBytes resp hcalled hdo hstatus =>
    obtain ⟨hk1, hk2, hu, hg, huv, hgv, hmarshal, hnew⟩ := hcalled
    simp [logicAPIHandler, hk1, hk2, hu, hg, huv, hgv, hmarshal, hnew, hdo, hstatus, respond,
      errorFragments, httpStatusInternalServerError, httpStatusOK, Effect.isFileOp]
  | generatorBody reqBytes resp err hcalled hdo hstatus hread =>
    obtain ⟨hk1, hk2, hu, hg, huv, hgv, hmarshal, hnew⟩ := hcalled
    simp [logicAPIHandler, hk1, hk2, hu, hg, huv, hgv, hmarshal, hnew, hdo, hstatus, hread,
      respond, errorFragments, httpStatusInternalServerError, httpStatusOK, Effect.isFileOp]
  | generatorParse reqBytes resp err hcalled hdo hstatus hread hparse =>
    obtain ⟨hk1, hk2, hu, hg, huv, hgv, hmarshal, hnew⟩ := hcalled
    simp [logicAPIHandler, hk1, hk2, hu, hg, huv, hgv, hmarshal, hnew, hdo, hstatus, hread,
      hparse, respond, errorFragments, httpStatusInternalServerError, httpStatusOK,
      Effect.isFileOp]
  | generatorNoChoices reqBytes resp parsed hcalled hdo hstatus hread hparse hzero =>
    obtain ⟨hk1, hk2, hu, hg, huv, hgv, hmarshal, hnew⟩ := hcalled
    simp [logicAPIHandler, hk1, hk2, hu, hg, huv, hgv, hmarshal, hnew, hdo, hstatus, hread,
      hparse, hzero, respond, errorFragments, httpStatusInternalServerError, httpStatusOK,
      Effect.isFileOp]
  | synthesizerCall reqBytes t ttsBytes err hcalled hdo2 =>
    obtain ⟨⟨⟨hk1, hk2, hu, hg, huv, hgv, hmarshal, hnew⟩, genResp, parsed, choice0, others,
      hdo, hstatus, hread, hparse, hchoices, htext⟩, hmarshal2, hnew2⟩ := hcalled
    simp [logicAPIHandler, hk1, hk2, hu, hg, huv, hgv, hmarshal, hnew, hdo, hstatus, hread,
      hparse, hchoices, htext, hmarshal2, hnew2, hdo2, respond, errorFragments,
      httpStatusInternalServerError, httpStatusOK, Effect.isFileOp]
  | synthesizerStatus reqBytes t ttsBytes resp hcalled hdo2 hstatus2 =>
    obtain ⟨⟨⟨hk1, hk2, hu, hg, huv, hgv, hmarshal, hnew⟩, genResp, parsed, choice0, others,
      hdo, hstatus, hread, hparse, hchoices, htext⟩, hmarshal2, hnew2⟩ := hcalled
    simp [logicAPIHandler, hk1, hk2, hu, hg, huv, hgv, hmarshal, hnew, hdo, hstatus, hread,
      hparse, hchoices, htext, hmarshal2, hnew2, hdo2, hstatus2, respond, errorFragments,
      httpStatusInternalServerError, httpStatusOK, Effect.isFileOp]
  | streamBreaks reqBytes t ttsBytes resp err hcalled hdo2 hstatus2 hread2 =>
    obtain ⟨⟨⟨hk1, hk2, hu, hg, huv, hgv, hmarshal, hnew⟩, genResp, parsed, choice0, others,
      hdo, hstatus, hread, hparse, hchoices, htext⟩, hmarshal2, hnew2⟩ := hcalled
    obtain ⟨e, hcopy⟩ := ioCopy_of_broken_stream w.writeFault resp err hread2
    cases hmkdir : w.mkdirAllErr (ascii "audio") with
    | some e1 =>
      simp [logicAPIHandler, hk1, hk2, hu, hg, huv, hgv, hmarshal, hnew, hdo, hstatus, hread,
        hparse, hchoices, htext, hmarshal2, hnew2, hdo2, hstatus2, hmkdir, respond,
        errorFragments, httpStatusInternalServerError, httpStatusOK]
    | none =>
      cases hopen : w.openFileErr (tempFile w.uuidNew) with
      | some e2 =>
        simp [logicAPIHandler, hk1, hk2, hu, hg, huv, hgv, hmarshal, hnew, hdo, hstatus, hread,
          hparse, hchoices, htext, hmarshal2, hnew2, hdo2, hstatus2, hmkdir, hopen, respond,
          errorFragments, httpStatusInternalServerError, httpStatusOK]
      | none =>
        simp [logicAPIHandler, hk1, hk2, hu, hg, huv, hgv, hmarshal, hnew, hdo, hstatus, hread,
          hparse, hchoices, htext, hmarshal2, hnew2, hdo2, hstatus2, hmkdir, hopen, hcopy,
          respond, errorFragments, httpStatusInternalServerError, httpStatusOK]

/-- A generator that answers 500, a synthesizer that answers 401 and an audio stream
that breaks during the copy: the three runs end with status 500; the first two
leave the file system as it was. -/
theorem upstream_failure_demo :
    (logicAPIHandler generatorDownWorld).status = 500
      ∧ (logicAPIHandler generatorDownWorld).fs = generatorDownWorld.fs
      ∧ (logicAPIHandler synthRefusesWorld).status = 500
      ∧ (logicAPIHandler synthRefusesWorld).fs = synthRefusesWorld.fs
      ∧ (logicAPIHandler brokenStreamWorld).status = 500 :=
  have hgen := upstream_failure_error_response generatorDownWorld Stage.generator
    (UpstreamFailure.generatorStatus (ascii "deepseek-request")
      { statusCode := 500, status := ascii "500 Internal Server Error",
        body := ascii "upstream exhausted", bodyErr := none }
      ⟨by decide, by decide, by decide, by decide, by decide, by decide, rfl, rfl⟩
      rfl (by decide))
  have hcalled : ∀ (w : World), w.getenv = demoWorld.getenv → w.postForm = demoWorld.postForm →
      w.jsonMarshalRequest = demoWorld.jsonMarshalRequest →
      w.newRequestErr = demoWorld.newRequestErr → GeneratorCalled w (ascii "deepseek-request") :=
    fun w h1 h2 h3 h4 => by
      unfold GeneratorCalled
      rw [h1, h2, h3, h4]
      exact ⟨by decide, by decide, by decide, by decide, by decide, by decide, rfl, rfl⟩
  have hsyn := upstream_failure_error_response synthRefusesWorld Stage.synthesizer
    (UpstreamFailure.synthesizerStatus (ascii "deepseek-request")
      (ascii "She listened as he spoke.") (ascii "She listened as he spoke.")
      { statusCode := 401, status := ascii "401 Unauthorized", body := ascii "invalid api key",
        bodyErr := none }
      ⟨⟨hcalled synthRefusesWorld rfl rfl rfl rfl, _, _, _, _, rfl, rfl, rfl, rfl, rfl, rfl⟩,
        rfl, rfl⟩
      rfl (by decide))
  have hstream := upstream_failure_error_response brokenStreamWorld Stage.audioStream
    (UpstreamFailure.streamBreaks (ascii "deepseek-request")
      (ascii "She listened as he spoke.") (ascii "She listened as he spoke.")
      { statusCode := 200, status := ascii "200 OK", body := [0x49, 0x44],
        bodyErr := some (ascii "unexpected EOF") }
      (ascii "unexpected EOF")
      ⟨⟨hcalled brokenStreamWorld rfl rfl rfl rfl, _, _, _, _, rfl, rfl, rfl, rfl, rfl, rfl⟩,
        rfl, rfl⟩
      rfl rfl rfl)
  ⟨hgen.1, (hgen.2.2 (by decide)).2, hsyn.1, (hsyn.2.2 (by decide)).2, hstream.1⟩

/-- Claim C8 as stated fails: when the synthesizer's stream breaks after its 200
status, two bytes into the body, the request ends with status 500 and the audio
directory holds a new file, `audio/<id>.mp3`, with those two bytes. -/
theorem broken_stream_leaves_truncated_file :
    failedCheck (logicAPIHandler brokenStreamWorld) = some "Failed to save audio file"
      ∧ (logicAPIHandler brokenStreamWorld).status = 500
      ∧ brokenStreamWorld.fs.files demoPath = none
      ∧ (logicAPIHandler brokenStreamWorld).fs.files demoPath = some [0x49, 0x44] := by
  decide

/-- Claim C9: the body of a failing run of `logicAPIHandler` is one of the twelve
constant error fragments, and two failing runs that stopped at the same check have
the same body, whatever their keys, inputs, upstream status lines, upstream bodies
and error values were. -/
theorem error_body_determined_by_check (w₁ w₂ : World)
    (h₁ : (logicAPIHandler w₁).status ≠ 200)
    (h₂ : (logicAPIHandler w₂).status ≠ 200)
    (hsame : failedCheck (logicAPIHandler w₁) = failedCheck (logicAPIHandler w₂)) :
    (logicAPIHandler w₁).body ∈ errorFragments
      ∧ (logicAPIHandler w₁).body = (logicAPIHandler w₂).body := by
  refine ⟨failing_body_mem w₁ h₁, ?_⟩
  obtain ⟨m₁, hm₁, hb₁⟩ := failing_body_of_check w₁ h₁
  obtain ⟨m₂, hm₂, hb₂⟩ := failing_body_of_check w₂ h₂
  rw [hm₁, hm₂] at hsame
  have hm : m₁ = m₂ := Option.some.inj hsame
  rw [hb₁, hb₂, hm]

/-- A 401 with one body and a 503 with another, under other keys and inputs: the
same check fails and the two response bodies are equal. -/
theorem error_body_same_for_401_and_503 :
    synthRefusesWorld.getenv "ELEVENLABS_API_KEY" ≠ synthDownWorld.getenv "ELEVENLABS_API_KEY"
      ∧ (logicAPIHandler synthRefusesWorld).body = (logicAPIHandler synthDownWorld).body :=
  ⟨by decide,
    (error_body_determined_by_check synthRefusesWorld synthDownWorld (by decide) (by decide)
      (by decide)).2⟩

/-- Claim C10: in one pass of the sweeper, every listed entry whose `Info()`
succeeds, whose age exceeds one hour and whose `os.Remove` succeeds is deleted,
whatever happens to the other entries of the listing and wherever they stand; and a
tick on which `os.ReadDir` fails changes no file and removes nothing, the loop
running the later ticks as if that tick had not been. -/
theorem sweep_continues_past_failures (t : Tick) (st : SweepState) (ticks : List Tick) :
    (∀ files f fi, t.readDir = .ok files → f ∈ files → t.info f = .ok fi →
        t.now f - fi.modTime > timeHour →
        t.removeErr (filepathJoin (ascii "audio") f) = none →
        (sweepTick t st).fs.files (filepathJoin (ascii "audio") f) = none)
      ∧ (∀ err, t.readDir = .error err →
          (sweepTick t st).fs = st.fs
            ∧ (sweepTick t st).effects = st.effects
            ∧ (cleanupHelperFunc (t :: ticks) st).fs = (cleanupHelperFunc ticks st).fs) := by
  constructor
  · intro files f fi hdir hf hstat hage hremove
    rw [sweepTick_files t st files hdir]
    have hre : removesEntry t f = true := by
      simp only [removesEntry, hstat, Bool.and_eq_true, decide_eq_true_eq, hremove]
      exact ⟨(timeSince_gt_hour _ _).mpr hage, rfl⟩
    rw [if_pos ⟨f, hf, hre, rfl⟩]
  · intro err hdir
    have hfs : (sweepTick t st).fs = st.fs := by simp [sweepTick, hdir]
    refine ⟨hfs, by simp [sweepTick, hdir], ?_⟩
    simp only [cleanupHelperFunc]
    exact cleanupHelperFunc_fs_congr ticks _ _ hfs

/-- An old entry listed after one that cannot be stat-ed and one that cannot be
removed is deleted; and after a tick that cannot list the directory, the next tick
deletes the old entry. -/
theorem sweep_troubled_and_blind_demo :
    (sweepTick troubledTick demoSweepState).fs.files (ascii "audio/old.mp3") = none
      ∧ (cleanupHelperFunc [blindTick, demoTick] demoSweepState).fs.files
          (ascii "audio/old.mp3") = none :=
  ⟨(sweep_continues_past_failures troubledTick demoSweepState []).1
      [ascii "gone.mp3", ascii "locked.mp3", ascii "old.mp3"] (ascii "old.mp3")
      { modTime := 10 * timeHour - twoHours } rfl (by decide) rfl (by decide) rfl,
   by
    rw [((sweep_continues_past_failures blindTick demoSweepState [demoTick]).2
      (ascii "open audio: too many open files") rfl).2.2]
    decide⟩

end Husbandgram
